import Mathlib

/-!
# jelech/resp: the response builder of `response.go`

A shallow embedding of `response.go`.  The builder `*Response` is a value that
every method takes and returns (the pointer receiver is mutated in place in
Go); the `*gin.Context` is a recorder of the writes made through `c.JSON` and
`c.AbortWithStatusJSON`; standard output is the list of texts printed so far.
-/

namespace Resp

/-! ## Go values -/

/-- The classification pair: `type Error struct { Code int; Msg string }`.
`Code` is a Go `int`; the program only assigns it and compares it with `0`,
so no arithmetic can wrap and an unbounded integer stands for it. -/
structure Error where
  Code : Int
  Msg : String
deriving DecidableEq, Repr

/-- The dynamic values an `interface{}` can hold here.  `nil` is the nil
interface, the only value for which `x == nil` holds; `other` is a non-nil
value of any further (non-string) type, kept by the text `%v` prints for it. -/
inductive Value where
  | nil
  | str (s : String)
  | int (i : Int)
  | bool (b : Bool)
  | uintptr (n : Nat)
  | error (msg : String)
  | Error (e : Error)
  | emptyStruct
  | other (text : String)
deriving DecidableEq, Repr

/-- A Go `error`: `none` is the nil error, `some msg` is an error whose
`Error()` text is `msg`. -/
abbrev GoError := Option String

/-- An `error` passed where an `interface{}` is expected. -/
def GoError.toValue : GoError → Value
  | none => Value.nil
  | some msg => Value.error msg

/-! ## The formatting functions of package `fmt` used by the program -/

/-- The test `reflect.TypeOf(arg).Kind() == reflect.String` of `fmt`. -/
def Value.isString : Value → Bool
  | Value.str _ => true
  | _ => false

/-- The text the verb `%v` prints for a value. -/
def printArg : Value → String
  | Value.nil => "<nil>"
  | Value.str s => s
  | Value.int i => toString i
  | Value.bool b => if b then "true" else "false"
  | Value.uintptr n => toString n
  | Value.error msg => msg
  | Value.Error e => "\x7b" ++ toString e.Code ++ " " ++ e.Msg ++ "\x7d"
  | Value.emptyStruct => "\x7b\x7d"
  | Value.other text => text

/-- The loop of `fmt.Sprint`: a space goes between two operands when neither
is a string. -/
def doPrint : Bool → Nat → List Value → String
  | _, _, [] => ""
  | prevString, argNum, arg :: rest =>
    (if 0 < argNum ∧ arg.isString = false ∧ prevString = false then " " else "")
      ++ printArg arg ++ doPrint arg.isString (argNum + 1) rest

/-- Go: `fmt.Sprint(a...)`. -/
def Sprint (a : List Value) : String := doPrint false 0 a

/-- Go: `fmt.Sprintln(a...)`: a space between all operands, a newline at the end. -/
def Sprintln (a : List Value) : String :=
  String.intercalate " " (a.map printArg) ++ "\n"

/-! ## The HTTP context and standard output -/

/-- One response write: which of the two gin operations made it
(`abort = true` for `AbortWithStatusJSON`, `false` for `JSON`), the status
code and the value handed over as the JSON body. -/
structure Write where
  abort : Bool
  status : Nat
  body : Value
deriving DecidableEq, Repr

/-- The `*gin.Context`, as the sequence of writes made on it, oldest first. -/
structure Context where
  writes : List Write
deriving DecidableEq, Repr

/-- Go (gin): `c.JSON(code, obj)`. -/
def Context.JSON (c : Context) (code : Nat) (obj : Value) : Context :=
  { writes := c.writes ++ [{ abort := false, status := code, body := obj }] }

/-- Go (gin): `c.AbortWithStatusJSON(code, obj)`. -/
def Context.AbortWithStatusJSON (c : Context) (code : Nat) (obj : Value) : Context :=
  { writes := c.writes ++ [{ abort := true, status := code, body := obj }] }

/-- Standard output: the texts printed so far, one entry per print call. -/
abbrev Stdout := List String

/-- What `runtime.Caller(1)` returns: `(pc, file, line, ok)`. -/
structure Caller where
  pc : Nat
  file : String
  line : Int
  ok : Bool
deriving DecidableEq, Repr

/-- Status codes of package `net/http`. -/
def StatusOK : Nat := 200
def StatusBadRequest : Nat := 400
def StatusUnauthorized : Nat := 401
def StatusForbidden : Nat := 403
def StatusNotFound : Nat := 404
def StatusInternalServerError : Nat := 500

/-! ## `response.go` -/

def OK : Error := { Code := 0, Msg := "OK" }
def BadRequest : Error := { Code := 0, Msg := "Bad Request" }
def Unauthorized : Error := { Code := 0, Msg := "Unauthorized" }
def Forbidden : Error := { Code := 0, Msg := "Forbidden" }
def NotFound : Error := { Code := 0, Msg := "Not found" }
def InternalError : Error := { Code := 0, Msg := "Internal Error" }

/-- The builder: `type Response struct { Error; aborted bool }`. -/
structure Response extends Error where
  aborted : Bool
deriving DecidableEq, Repr

/-- Go: `newResponse`, the zero value `&Response{}`. -/
def newResponse : Response := { Code := 0, Msg := "", aborted := false }

/-- Go: `(*Response).defaultData`. -/
def Response.defaultData (e : Response) (data : Value) : Value :=
  if data = Value.nil then Value.Error { Code := e.Code, Msg := e.Msg } else data

/-- Go: `(*Response).coverData`; `data` is a copy, the result is boxed in an
`interface{}`. -/
def Response.coverData (e : Response) (data : Error) : Value :=
  let data := if e.Code ≠ 0 then { data with Code := e.Code } else data
  let data := if e.Msg ≠ "" then { data with Msg := e.Msg } else data
  Value.Error data

/-- Go: `(*Response).finishContext`. -/
def Response.finishContext (e : Response) (c : Context) (statusCode : Nat)
    (data : Value) : Context :=
  if e.aborted then c.AbortWithStatusJSON statusCode data
  else c.JSON statusCode data

/-- Go: `(*Response).WithCode`. -/
def Response.WithCode (e : Response) (c : Int) : Response :=
  { e with Code := c }

/-- Go: `(*Response).WithMsg`. -/
def Response.WithMsg (e : Response) (s : List Value) : Response :=
  { e with Msg := Sprint s }

/-- Go: `(*Response).WithCodeAndMsg`. -/
def Response.WithCodeAndMsg (e : Response) (ec : Error) : Response :=
  { e with Code := ec.Code, Msg := ec.Msg }

/-- Go: `(*Response).Log`; `rt` is what `runtime.Caller(1)` returned. -/
def Response.Log (e : Response) (rt : Caller) (out : Stdout) (err : GoError) :
    Response × Stdout :=
  (e, out ++ [Sprint [Value.uintptr rt.pc, Value.str rt.file, Value.int rt.line,
    Value.bool rt.ok, err.toValue]])

/-- Go: `(*Response).Abort`. -/
def Response.Abort (e : Response) : Response :=
  { e with aborted := true }

/-- Go: `(*Response).Try`. -/
def Response.Try (_e : Response) (err : Value) : Bool :=
  decide (err ≠ Value.nil)

/-- Go: `(*Response).InternalErr`. -/
def Response.InternalErr (e : Response) (c : Context) : Response × Context :=
  let e := { e with aborted := true }
  (e, e.finishContext c StatusInternalServerError (e.coverData InternalError))

/-- Go: `(*Response).ForbiddenErr`. -/
def Response.ForbiddenErr (e : Response) (c : Context) : Response × Context :=
  let e := { e with aborted := true }
  (e, e.finishContext c StatusForbidden (e.coverData Forbidden))

/-- Go: `(*Response).NotFoundErr`. -/
def Response.NotFoundErr (e : Response) (c : Context) : Response × Context :=
  let e := { e with aborted := true }
  (e, e.finishContext c StatusNotFound (e.coverData NotFound))

/-- Go: `(*Response).UnauthorizedErr`. -/
def Response.UnauthorizedErr (e : Response) (c : Context) : Response × Context :=
  let e := { e with aborted := true }
  (e, e.finishContext c StatusUnauthorized (e.coverData Unauthorized))

/-- Go: `(*Response).BadRequestErr`. -/
def Response.BadRequestErr (e : Response) (c : Context) : Response × Context :=
  let e := { e with aborted := true }
  (e, e.finishContext c StatusBadRequest (e.coverData BadRequest))

/-- Go: `(*Response).Success`; the builder is not assigned to, so it is
returned as it came. -/
def Response.Success (e : Response) (c : Context) (data : Value) : Response × Context :=
  let data := e.defaultData data
  (e, e.finishContext c StatusOK data)

/-- Go: `(*Response).CheckInternalErr`: the returned boolean, the builder and
the context after the call. -/
def Response.CheckInternalErr (e : Response) (c : Context) (err : GoError) :
    Bool × Response × Context :=
  if err = none then (false, e, c)
  else
    let e := { e with aborted := true }
    (true, e, e.finishContext c StatusInternalServerError (e.coverData InternalError))

/-- Go: the package-level `WithCode`. -/
def WithCode (c : Int) : Response :=
  let r := newResponse
  { r with Code := c }

/-- Go: the package-level `WithMsg`. -/
def WithMsg (s : List Value) : Response :=
  let r := newResponse
  { r with Msg := Sprint s }

/-- Go: the package-level `WithCodeAndMsg`. -/
def WithCodeAndMsg (e : Error) : Response :=
  let r := newResponse
  { r with Code := e.Code, Msg := e.Msg }

/-- The text of `fmt.Printf("[%v] [%v:%v:%v] %v", now, caller, file, line, err)`. -/
def logLine (now : Int) (rt : Caller) (err : Value) : String :=
  "[" ++ printArg (Value.int now) ++ "] [" ++ printArg (Value.uintptr rt.pc) ++ ":"
    ++ printArg (Value.str rt.file) ++ ":" ++ printArg (Value.int rt.line) ++ "] "
    ++ printArg err

/-- Go: the package-level `WithMsgLog`; `now` is `time.Now().Unix()`. -/
def WithMsgLog (now : Int) (rt : Caller) (out : Stdout) (s : List Value) :
    Response × Stdout :=
  let r := newResponse
  let r := { r with Msg := Sprint s }
  match s with
  | [Value.nil] => (r, out)
  | _ => (r, out ++ [logLine now rt (Value.error (Sprintln s))])

/-- Go: the package-level `Log`. -/
def Log (now : Int) (rt : Caller) (out : Stdout) (err : GoError) : Response × Stdout :=
  (newResponse, out ++ [logLine now rt err.toValue])

/-- Go: the package-level `Success`. -/
def Success (ctx : Context) (data : Value) : Response × Context :=
  newResponse.Success ctx data

/-- Go: the package-level `InternalErr`. -/
def InternalErr (c : Context) : Response × Context := newResponse.InternalErr c

/-- Go: the package-level `ForbiddenErr`. -/
def ForbiddenErr (c : Context) : Response × Context := newResponse.ForbiddenErr c

/-- Go: the package-level `NotFoundErr`. -/
def NotFoundErr (c : Context) : Response × Context := newResponse.NotFoundErr c

/-- Go: the package-level `UnauthorizedErr`. -/
def UnauthorizedErr (c : Context) : Response × Context := newResponse.UnauthorizedErr c

/-- Go: the package-level `BadRequestErr`. -/
def BadRequestErr (c : Context) : Response × Context := newResponse.BadRequestErr c

/-! ## Sequences of calls on one builder -/

/-- Everything a call can read or change: the builder, the HTTP context and
standard output. -/
structure World where
  e : Response
  c : Context
  out : Stdout
deriving DecidableEq, Repr

/-- One call of a method of `*Response`, with its arguments. -/
inductive Call where
  | WithCode (c : Int)
  | WithMsg (s : List Value)
  | WithCodeAndMsg (ec : Error)
  | Log (rt : Caller) (err : GoError)
  | Abort
  | Try (err : Value)
  | InternalErr
  | ForbiddenErr
  | NotFoundErr
  | UnauthorizedErr
  | BadRequestErr
  | Success (data : Value)
  | CheckInternalErr (err : GoError)
deriving DecidableEq, Repr

/-- The effect of one call on the world (a returned boolean is dropped). -/
def Call.exec : Call → World → World
  | Call.WithCode c, w => { w with e := w.e.WithCode c }
  | Call.WithMsg s, w => { w with e := w.e.WithMsg s }
  | Call.WithCodeAndMsg ec, w => { w with e := w.e.WithCodeAndMsg ec }
  | Call.Log rt err, w =>
    let r := w.e.Log rt w.out err
    { w with e := r.1, out := r.2 }
  | Call.Abort, w => { w with e := w.e.Abort }
  | Call.Try _, w => w
  | Call.InternalErr, w =>
    let r := w.e.InternalErr w.c
    { w with e := r.1, c := r.2 }
  | Call.ForbiddenErr, w =>
    let r := w.e.ForbiddenErr w.c
    { w with e := r.1, c := r.2 }
  | Call.NotFoundErr, w =>
    let r := w.e.NotFoundErr w.c
    { w with e := r.1, c := r.2 }
  | Call.UnauthorizedErr, w =>
    let r := w.e.UnauthorizedErr w.c
    { w with e := r.1, c := r.2 }
  | Call.BadRequestErr, w =>
    let r := w.e.BadRequestErr w.c
    { w with e := r.1, c := r.2 }
  | Call.Success data, w =>
    let r := w.e.Success w.c data
    { w with e := r.1, c := r.2 }
  | Call.CheckInternalErr err, w =>
    let r := w.e.CheckInternalErr w.c err
    { w with e := r.2.1, c := r.2.2 }

/-- A sequence of calls, left to right. -/
def execAll : List Call → World → World
  | [], w => w
  | k :: ks, w => execAll ks (k.exec w)

/-! ## Auxiliary facts -/

theorem Sprint_single_string (m : String) : Sprint [Value.str m] = m := by
  simp [Sprint, doPrint, printArg]

theorem finishContext_writes (e : Response) (c : Context) (statusCode : Nat) (data : Value) :
    (e.finishContext c statusCode data).writes
      = c.writes ++ [{ abort := e.aborted, status := statusCode, body := data }] := by
  unfold Response.finishContext
  cases h : e.aborted <;> simp [Context.JSON, Context.AbortWithStatusJSON]

theorem coverData_aborted_irrelevant (e : Response) (b : Bool) (base : Error) :
    Response.coverData { e with aborted := b } base = e.coverData base := by
  simp [Response.coverData]

theorem coverData_eq (e : Response) (base : Error) :
    e.coverData base
      = Value.Error { Code := if e.Code ≠ 0 then e.Code else base.Code,
                      Msg := if e.Msg ≠ "" then e.Msg else base.Msg } := by
  unfold Response.coverData
  by_cases hc : e.Code = 0 <;> by_cases hm : e.Msg = "" <;> simp [hc, hm]

theorem append_singleton_ne_self (ws : List Write) (w : Write) : ws ++ [w] ≠ ws := by
  intro h
  have hl := congrArg List.length h
  simp at hl

theorem CheckInternalErr_some (e : Response) (c : Context) (msg : String) :
    e.CheckInternalErr c (some msg) = (true, e.InternalErr c) := by
  simp [Response.CheckInternalErr, Response.InternalErr]

theorem CheckInternalErr_none (e : Response) (c : Context) :
    e.CheckInternalErr c none = (false, e, c) := by
  simp [Response.CheckInternalErr]

theorem InternalErr_writes (e : Response) (c : Context) :
    (e.InternalErr c).2.writes
      = c.writes ++ [{ abort := true, status := 500, body := e.coverData InternalError }] := by
  simp only [Response.InternalErr, finishContext_writes, coverData_aborted_irrelevant,
    StatusInternalServerError]

theorem exec_aborted_of_aborted (k : Call) (w : World) (h : w.e.aborted = true) :
    (k.exec w).e.aborted = true := by
  cases k with
  | CheckInternalErr err =>
    cases err with
    | none => simpa [Call.exec, CheckInternalErr_none] using h
    | some msg => simp [Call.exec, CheckInternalErr_some, Response.InternalErr]
  | _ =>
    simp [Call.exec, Response.WithCode, Response.WithMsg, Response.WithCodeAndMsg,
      Response.Log, Response.Abort, Response.InternalErr, Response.ForbiddenErr,
      Response.NotFoundErr, Response.UnauthorizedErr, Response.BadRequestErr,
      Response.Success, h]

theorem execAll_aborted_of_aborted (ks : List Call) (w : World) (h : w.e.aborted = true) :
    (execAll ks w).e.aborted = true := by
  induction ks generalizing w with
  | nil => simpa [execAll] using h
  | cons k ks ih =>
    simp only [execAll]
    exact ih (k.exec w) (exec_aborted_of_aborted k w h)

theorem exec_writes_of_aborted (k : Call) (w : World) (h : w.e.aborted = true) :
    ∃ ws : List Write, (k.exec w).c.writes = w.c.writes ++ ws ∧ ∀ x ∈ ws, x.abort = true := by
  cases k with
  | WithCode c => exact ⟨[], by simp [Call.exec], by simp⟩
  | WithMsg s => exact ⟨[], by simp [Call.exec], by simp⟩
  | WithCodeAndMsg ec => exact ⟨[], by simp [Call.exec], by simp⟩
  | Log rt err => exact ⟨[], by simp [Call.exec], by simp⟩
  | Abort => exact ⟨[], by simp [Call.exec], by simp⟩
  | Try err => exact ⟨[], by simp [Call.exec], by simp⟩
  | InternalErr =>
    exact ⟨_, by simp only [Call.exec, Response.InternalErr, finishContext_writes]; rfl, by simp⟩
  | ForbiddenErr =>
    exact ⟨_, by simp only [Call.exec, Response.ForbiddenErr, finishContext_writes]; rfl, by simp⟩
  | NotFoundErr =>
    exact ⟨_, by simp only [Call.exec, Response.NotFoundErr, finishContext_writes]; rfl, by simp⟩
  | UnauthorizedErr =>
    exact ⟨_, by simp only [Call.exec, Response.UnauthorizedErr, finishContext_writes]; rfl, by simp⟩
  | BadRequestErr =>
    exact ⟨_, by simp only [Call.exec, Response.BadRequestErr, finishContext_writes]; rfl, by simp⟩
  | Success data =>
    exact ⟨_, by simp only [Call.exec, Response.Success, finishContext_writes]; rfl, by simp [h]⟩
  | CheckInternalErr err =>
    cases err with
    | none => exact ⟨[], by simp [Call.exec, CheckInternalErr_none], by simp⟩
    | some msg =>
      exact ⟨_, by simp only [Call.exec, CheckInternalErr_some, InternalErr_writes]; rfl, by simp⟩

theorem execAll_writes_of_aborted (ks : List Call) (w : World) (h : w.e.aborted = true) :
    ∃ ws : List Write, (execAll ks w).c.writes = w.c.writes ++ ws
      ∧ ∀ x ∈ ws, x.abort = true := by
  induction ks generalizing w with
  | nil => exact ⟨[], by simp [execAll], by simp⟩
  | cons k ks ih =>
    obtain ⟨ws1, h1, a1⟩ := exec_writes_of_aborted k w h
    obtain ⟨ws2, h2, a2⟩ := ih (k.exec w) (exec_aborted_of_aborted k w h)
    refine ⟨ws1 ++ ws2, ?_, ?_⟩
    · simp only [execAll, h2, h1, List.append_assoc]
    · intro x hx
      rcases List.mem_append.mp hx with hx | hx
      · exact a1 x hx
      · exact a2 x hx

/-! ## The error-terminal methods -/

/-- C1: for every builder state and every context, each of the five
error-terminal methods appends exactly one write to the context, made through
`AbortWithStatusJSON`, with the status and body of the table: `InternalErr`
500 with `coverData(InternalError)`, `ForbiddenErr` 403 with
`coverData(Forbidden)`, `NotFoundErr` 404 with `coverData(NotFound)`,
`UnauthorizedErr` 401 with `coverData(Unauthorized)`, `BadRequestErr` 400 with
`coverData(BadRequest)`; on a fresh builder `BadRequestErr` writes status 400
with body code 0, msg "Bad Request". -/
theorem error_terminal_table (e : Response) (c : Context) :
    (e.InternalErr c).2.writes
        = c.writes ++ [{ abort := true, status := 500, body := e.coverData InternalError }]
    ∧ (e.ForbiddenErr c).2.writes
        = c.writes ++ [{ abort := true, status := 403, body := e.coverData Forbidden }]
    ∧ (e.NotFoundErr c).2.writes
        = c.writes ++ [{ abort := true, status := 404, body := e.coverData NotFound }]
    ∧ (e.UnauthorizedErr c).2.writes
        = c.writes ++ [{ abort := true, status := 401, body := e.coverData Unauthorized }]
    ∧ (e.BadRequestErr c).2.writes
        = c.writes ++ [{ abort := true, status := 400, body := e.coverData BadRequest }]
    ∧ (newResponse.BadRequestErr c).2.writes
        = c.writes ++ [{ abort := true, status := 400,
                         body := Value.Error { Code := 0, Msg := "Bad Request" } }]
    ∧ (BadRequestErr c).2.writes
        = c.writes ++ [{ abort := true, status := 400,
                         body := Value.Error { Code := 0, Msg := "Bad Request" } }] := by
  refine ⟨?_, ?_, ?_, ?_, ?_, ?_, ?_⟩
  · simp only [Response.InternalErr, finishContext_writes, coverData_aborted_irrelevant,
      StatusInternalServerError]
  · simp only [Response.ForbiddenErr, finishContext_writes, coverData_aborted_irrelevant,
      StatusForbidden]
  · simp only [Response.NotFoundErr, finishContext_writes, coverData_aborted_irrelevant,
      StatusNotFound]
  · simp only [Response.UnauthorizedErr, finishContext_writes, coverData_aborted_irrelevant,
      StatusUnauthorized]
  · simp only [Response.BadRequestErr, finishContext_writes, coverData_aborted_irrelevant,
      StatusBadRequest]
  · simp only [Response.BadRequestErr, finishContext_writes, coverData_aborted_irrelevant,
      StatusBadRequest]
    rfl
  · simp only [BadRequestErr, Response.BadRequestErr, finishContext_writes,
      coverData_aborted_irrelevant, StatusBadRequest]
    rfl

/-! ## The overlay `coverData` -/

/-- C2: for every builder state `e` and every classification `base`,
`coverData(base)` is the pair whose code is `e.Code` if `e.Code != 0` and
`base.Code` otherwise, and whose message is `e.Msg` if `e.Msg != ""` and
`base.Msg` otherwise, each field decided on its own; so a builder with code 0
and empty message returns `base` unchanged, a non-zero builder code wins over
`base.Code` and a non-empty builder message wins over `base.Msg`. -/
theorem coverData_overlay (e : Response) (base : Error) :
    e.coverData base
        = Value.Error { Code := if e.Code ≠ 0 then e.Code else base.Code,
                        Msg := if e.Msg ≠ "" then e.Msg else base.Msg }
    ∧ (e.Code = 0 → e.Msg = "" → e.coverData base = Value.Error base)
    ∧ (e.Code ≠ 0 → ∃ msg, e.coverData base = Value.Error { Code := e.Code, Msg := msg })
    ∧ (e.Msg ≠ "" → ∃ code, e.coverData base = Value.Error { Code := code, Msg := e.Msg }) := by
  refine ⟨coverData_eq e base, ?_, ?_, ?_⟩
  · intro hc hm
    rw [coverData_eq]
    simp [hc, hm]
  · intro hc
    refine ⟨if e.Msg ≠ "" then e.Msg else base.Msg, ?_⟩
    rw [coverData_eq]
    simp [hc]
  · intro hm
    refine ⟨if e.Code ≠ 0 then e.Code else base.Code, ?_⟩
    rw [coverData_eq]
    simp [hm]

/-- C2 at concrete inputs: a builder with code 403001 and no message over
`Forbidden`, a builder with only a message over a base with code 7, and an
unconfigured builder. -/
theorem coverData_overlay_witness :
    Response.coverData { Code := 403001, Msg := "", aborted := false } Forbidden
        = Value.Error { Code := 403001, Msg := "Forbidden" }
    ∧ (∃ code, Response.coverData { Code := 0, Msg := "taken", aborted := true }
        { Code := 7, Msg := "base" } = Value.Error { Code := code, Msg := "taken" })
    ∧ newResponse.coverData NotFound = Value.Error NotFound :=
  ⟨(coverData_overlay { Code := 403001, Msg := "", aborted := false } Forbidden).1,
   (coverData_overlay { Code := 0, Msg := "taken", aborted := true }
      { Code := 7, Msg := "base" }).2.2.2 (by decide),
   (coverData_overlay newResponse NotFound).2.1 rfl rfl⟩

/-! ## The success path -/

/-- C3: for every builder state, context and payload, `Success` appends
exactly one write, with status 200, whose body is the payload itself when the
payload is non-nil (whatever the code and message of the builder) and the
classification made of the builder's code and message when the payload is
nil; this is `defaultData`. -/
theorem Success_write (e : Response) (c : Context) (data : Value) :
    (∃ w, (e.Success c data).2.writes = c.writes ++ [w] ∧ w.status = 200
        ∧ w.body = e.defaultData data)
    ∧ (data ≠ Value.nil → e.defaultData data = data)
    ∧ (data ≠ Value.nil → ∀ e2 : Response, e2.defaultData data = e.defaultData data)
    ∧ e.defaultData Value.nil = Value.Error { Code := e.Code, Msg := e.Msg }
    ∧ (e.Success c data).2.writes
        = c.writes ++ [{ abort := e.aborted, status := 200,
                         body := if data = Value.nil
                                 then Value.Error { Code := e.Code, Msg := e.Msg }
                                 else data }] := by
  refine ⟨⟨{ abort := e.aborted, status := 200, body := e.defaultData data }, ?_, rfl, rfl⟩,
    ?_, ?_, ?_, ?_⟩
  · simp only [Response.Success, finishContext_writes, StatusOK]
  · intro h
    simp [Response.defaultData, h]
  · intro h e2
    simp [Response.defaultData, h]
  · simp [Response.defaultData]
  · simp only [Response.Success, finishContext_writes, StatusOK, Response.defaultData]

/-- C3 at concrete inputs: the empty struct of the test passes through a
configured builder untouched, and a nil payload yields the builder's pair. -/
theorem Success_write_witness :
    Response.defaultData { Code := 9, Msg := "m", aborted := false } Value.emptyStruct
        = Value.emptyStruct
    ∧ (Success { writes := [] } Value.emptyStruct).2.writes
        = [{ abort := false, status := 200, body := Value.emptyStruct }] :=
  ⟨(Success_write { Code := 9, Msg := "m", aborted := false } { writes := [] }
      Value.emptyStruct).2.1 (by decide),
   by decide⟩

/-- C4, as stated, fails: `Success(ctx, nil)` on a fresh builder writes the
body code 0, msg "" and no write of it carries the `OK` classification. -/
theorem Success_nil_fresh_not_OK :
    (Success { writes := [] } Value.nil).2.writes
        = [{ abort := false, status := 200, body := Value.Error { Code := 0, Msg := "" } }]
    ∧ ¬ ∃ w ∈ (Success { writes := [] } Value.nil).2.writes,
        w.body = Value.Error { Code := 0, Msg := "OK" } := by
  decide

/-- C4, amended: `Success` with a nil payload on a fresh builder (which is
what the package-level `Success(ctx, nil)` does) appends exactly one write,
through `c.JSON`, with status 200 and body code 0, msg "": the fresh
builder's own zero code and empty message. -/
theorem Success_nil_fresh (c : Context) :
    (newResponse.Success c Value.nil).2.writes
        = c.writes ++ [{ abort := false, status := 200,
                         body := Value.Error { Code := 0, Msg := "" } }]
    ∧ Success c Value.nil = newResponse.Success c Value.nil := by
  refine ⟨?_, rfl⟩
  simp only [Response.Success, finishContext_writes, StatusOK]
  rfl

/-! ## Custom code and message -/

/-- C5: for every non-zero code `c` and non-empty string `m`, a builder
configured with `WithCode(c).WithMsg(m)` (one string argument; the package
function or the method on any builder) or with `WithCodeAndMsg` of the pair
`c`, `m`, and finished with `ForbiddenErr`, writes exactly one response, status
403, body code `c`, msg `m`, with nothing of `Forbidden` left, and `WithMsg`
leaves the code set by `WithCode` alone. -/
theorem custom_code_msg_ForbiddenErr (c : Int) (m : String) (e : Response) (ctx : Context)
    (hc : c ≠ 0) (hm : m ≠ "") :
    (((WithCode c).WithMsg [Value.str m]).ForbiddenErr ctx).2.writes
        = ctx.writes ++ [{ abort := true, status := 403,
                           body := Value.Error { Code := c, Msg := m } }]
    ∧ ((WithCodeAndMsg { Code := c, Msg := m }).ForbiddenErr ctx).2.writes
        = ctx.writes ++ [{ abort := true, status := 403,
                           body := Value.Error { Code := c, Msg := m } }]
    ∧ (((e.WithCode c).WithMsg [Value.str m]).ForbiddenErr ctx).2.writes
        = ctx.writes ++ [{ abort := true, status := 403,
                           body := Value.Error { Code := c, Msg := m } }]
    ∧ ((e.WithCodeAndMsg { Code := c, Msg := m }).ForbiddenErr ctx).2.writes
        = ctx.writes ++ [{ abort := true, status := 403,
                           body := Value.Error { Code := c, Msg := m } }]
    ∧ ((e.WithCode c).WithMsg [Value.str m]).Code = c
    ∧ ((e.WithCode c).WithMsg [Value.str m]).Msg = m := by
  refine ⟨?_, ?_, ?_, ?_, rfl, ?_⟩
  · simp only [Response.ForbiddenErr, finishContext_writes, coverData_aborted_irrelevant,
      StatusForbidden, coverData_eq, WithCode, Response.WithMsg, Sprint_single_string]
    simp [hc, hm]
  · simp only [Response.ForbiddenErr, finishContext_writes, coverData_aborted_irrelevant,
      StatusForbidden, coverData_eq, WithCodeAndMsg]
    simp [hc, hm]
  · simp only [Response.ForbiddenErr, finishContext_writes, coverData_aborted_irrelevant,
      StatusForbidden, coverData_eq, Response.WithCode, Response.WithMsg, Sprint_single_string]
    simp [hc, hm]
  · simp only [Response.ForbiddenErr, finishContext_writes, coverData_aborted_irrelevant,
      StatusForbidden, coverData_eq, Response.WithCodeAndMsg]
    simp [hc, hm]
  · simp only [Response.WithMsg, Sprint_single_string]

/-- C5 at the inputs of the spec and of the test: code 403001 with the message
"username taken" through the chain, and with "用户名" through `WithCodeAndMsg`. -/
theorem custom_code_msg_ForbiddenErr_witness :
    (((WithCode 403001).WithMsg [Value.str "username taken"]).ForbiddenErr
        { writes := [] }).2.writes
        = [{ abort := true, status := 403,
             body := Value.Error { Code := 403001, Msg := "username taken" } }]
    ∧ ((WithCodeAndMsg { Code := 403001, Msg := "用户名" }).ForbiddenErr
        { writes := [] }).2.writes
        = [{ abort := true, status := 403,
             body := Value.Error { Code := 403001, Msg := "用户名" } }] :=
  ⟨(custom_code_msg_ForbiddenErr 403001 "username taken" newResponse { writes := [] }
      (by decide) (by decide)).1,
   (custom_code_msg_ForbiddenErr 403001 "用户名" newResponse { writes := [] }
      (by decide) (by decide)).2.1⟩

/-! ## `CheckInternalErr` -/

/-- C6: for every builder state and every non-nil error, `CheckInternalErr`
returns true and has exactly the effect of `InternalErr` on the same state:
the same single write (through `AbortWithStatusJSON`, status 500, body
`coverData(InternalError)`, so a code and message set before by `WithCode` and
`WithMsg` overlay the default) and the same resulting builder, with
`aborted = true` and code and message unchanged. -/
theorem CheckInternalErr_present (e : Response) (c : Context) (err : GoError)
    (h : err ≠ none) :
    e.CheckInternalErr c err = (true, e.InternalErr c)
    ∧ (e.CheckInternalErr c err).2.2.writes
        = c.writes ++ [{ abort := true, status := 500, body := e.coverData InternalError }]
    ∧ (e.CheckInternalErr c err).2.1 = { e with aborted := true }
    ∧ (e.CheckInternalErr c err).2.1.aborted = true
    ∧ (e.CheckInternalErr c err).2.1.Code = e.Code
    ∧ (e.CheckInternalErr c err).2.1.Msg = e.Msg
    ∧ (∀ (code : Int) (m : String), code ≠ 0 → m ≠ "" →
        (((e.WithCode code).WithMsg [Value.str m]).CheckInternalErr c err).2.2.writes
          = c.writes ++ [{ abort := true, status := 500,
                           body := Value.Error { Code := code, Msg := m } }]) := by
  obtain ⟨msg, rfl⟩ := Option.ne_none_iff_exists'.mp h
  refine ⟨CheckInternalErr_some e c msg, ?_, ?_, ?_, ?_, ?_, ?_⟩
  · rw [CheckInternalErr_some]
    exact InternalErr_writes e c
  · rw [CheckInternalErr_some]
    rfl
  · rw [CheckInternalErr_some]
    rfl
  · rw [CheckInternalErr_some]
    rfl
  · rw [CheckInternalErr_some]
    rfl
  · intro code m hcode hm
    rw [CheckInternalErr_some]
    simp only [InternalErr_writes, coverData_eq, Response.WithCode, Response.WithMsg,
      Sprint_single_string]
    simp [hcode, hm]

/-- C6 at the error of the test, on a builder that carries a message. -/
theorem CheckInternalErr_present_witness :
    Response.CheckInternalErr { Code := 0, Msg := "db down", aborted := false }
        { writes := [] } (some "this is test error")
      = (true, { Code := 0, Msg := "db down", aborted := true },
          { writes := [{ abort := true, status := 500,
                         body := Value.Error { Code := 0, Msg := "db down" } }] }) :=
  (CheckInternalErr_present { Code := 0, Msg := "db down", aborted := false }
    { writes := [] } (some "this is test error") (by decide)).1.trans (by decide)

/-- C7: for every builder state, `CheckInternalErr` with a nil error returns
false, makes no write and leaves the builder (code, message, aborted flag) as
it was; over all errors it returns true exactly when the error is non-nil,
and a write is made exactly when it returns true. -/
theorem CheckInternalErr_absent (e : Response) (c : Context) :
    e.CheckInternalErr c none = (false, e, c)
    ∧ (∀ err : GoError, (e.CheckInternalErr c err).1 = true ↔ err ≠ none)
    ∧ (∀ err : GoError, (∃ w, (e.CheckInternalErr c err).2.2.writes = c.writes ++ [w])
        ↔ (e.CheckInternalErr c err).1 = true)
    ∧ (∀ err : GoError, (e.CheckInternalErr c err).2.2.writes = c.writes
        ↔ (e.CheckInternalErr c err).1 = false) := by
  refine ⟨CheckInternalErr_none e c, ?_, ?_, ?_⟩
  · intro err
    cases err with
    | none => simp [CheckInternalErr_none]
    | some msg => simp [CheckInternalErr_some]
  · intro err
    cases err with
    | none =>
      simp only [CheckInternalErr_none]
      constructor
      · rintro ⟨w, hw⟩
        exact absurd hw.symm (append_singleton_ne_self c.writes w)
      · intro hf
        exact absurd hf (by decide)
    | some msg =>
      simp only [CheckInternalErr_some, InternalErr_writes]
      exact ⟨fun _ => trivial, fun _ => ⟨_, rfl⟩⟩
  · intro err
    cases err with
    | none => simp [CheckInternalErr_none]
    | some msg =>
      simp only [CheckInternalErr_some, InternalErr_writes]
      constructor
      · intro hw
        exact absurd hw (append_singleton_ne_self c.writes _)
      · intro hf
        exact absurd hf (by decide)

/-! ## The aborted flag -/

/-- C8: for every builder state, after `Abort()` each terminal call
(`InternalErr`, `ForbiddenErr`, `NotFoundErr`, `UnauthorizedErr`,
`BadRequestErr`, `CheckInternalErr` with a non-nil error, `Success` with any
payload) makes its one write through `AbortWithStatusJSON`, and so does every
write of any sequence of calls that follows `Abort()`; `Success` uses
`AbortWithStatusJSON` exactly when the flag `aborted` is true at the call, so
on a fresh builder it uses `c.JSON`. -/
theorem abort_selects_abort_variant (e : Response) (c : Context) (data : Value)
    (msg : String) :
    (∃ w, (e.Abort.InternalErr c).2.writes = c.writes ++ [w] ∧ w.abort = true)
    ∧ (∃ w, (e.Abort.ForbiddenErr c).2.writes = c.writes ++ [w] ∧ w.abort = true)
    ∧ (∃ w, (e.Abort.NotFoundErr c).2.writes = c.writes ++ [w] ∧ w.abort = true)
    ∧ (∃ w, (e.Abort.UnauthorizedErr c).2.writes = c.writes ++ [w] ∧ w.abort = true)
    ∧ (∃ w, (e.Abort.BadRequestErr c).2.writes = c.writes ++ [w] ∧ w.abort = true)
    ∧ (∃ w, (e.Abort.CheckInternalErr c (some msg)).2.2.writes = c.writes ++ [w]
        ∧ w.abort = true)
    ∧ (∃ w, (e.Abort.Success c data).2.writes = c.writes ++ [w] ∧ w.abort = true)
    ∧ (∃ w, (e.Success c data).2.writes = c.writes ++ [w]
        ∧ (w.abort = true ↔ e.aborted = true))
    ∧ (∃ w, (newResponse.Success c data).2.writes = c.writes ++ [w] ∧ w.abort = false)
    ∧ (∀ (ks : List Call) (out : Stdout), ∃ ws : List Write,
        (execAll (Call.Abort :: ks) { e := e, c := c, out := out }).c.writes = c.writes ++ ws
        ∧ ∀ x ∈ ws, x.abort = true) := by
  refine ⟨⟨{ abort := true, status := 500, body := e.coverData InternalError }, ?_, rfl⟩,
    ⟨{ abort := true, status := 403, body := e.coverData Forbidden }, ?_, rfl⟩,
    ⟨{ abort := true, status := 404, body := e.coverData NotFound }, ?_, rfl⟩,
    ⟨{ abort := true, status := 401, body := e.coverData Unauthorized }, ?_, rfl⟩,
    ⟨{ abort := true, status := 400, body := e.coverData BadRequest }, ?_, rfl⟩,
    ⟨{ abort := true, status := 500, body := e.coverData InternalError }, ?_, rfl⟩,
    ⟨{ abort := true, status := 200, body := e.defaultData data }, ?_, rfl⟩,
    ⟨{ abort := e.aborted, status := 200, body := e.defaultData data }, ?_, Iff.rfl⟩,
    ⟨{ abort := false, status := 200, body := newResponse.defaultData data }, ?_, rfl⟩, ?_⟩
  · simp only [Response.InternalErr, finishContext_writes]
    rfl
  · simp only [Response.ForbiddenErr, finishContext_writes]
    rfl
  · simp only [Response.NotFoundErr, finishContext_writes]
    rfl
  · simp only [Response.UnauthorizedErr, finishContext_writes]
    rfl
  · simp only [Response.BadRequestErr, finishContext_writes]
    rfl
  · simp only [CheckInternalErr_some, Response.InternalErr, finishContext_writes]
    rfl
  · simp only [Response.Success, finishContext_writes]
    rfl
  · simp only [Response.Success, finishContext_writes]
    rfl
  · simp only [Response.Success, finishContext_writes]
    rfl
  · intro ks out
    exact execAll_writes_of_aborted ks (Call.Abort.exec { e := e, c := c, out := out }) rfl

/-- C9: for every builder state the flag `aborted` is true after `Abort()`,
after each of the five error-terminal methods and after `CheckInternalErr`
with a non-nil error; it keeps its value across `Success`, `WithCode`,
`WithMsg`, `WithCodeAndMsg`, `Log`, `Try` and `CheckInternalErr` with a nil
error; a fresh builder has `aborted = false`; `Abort()` makes no write; and no
sequence of calls turns `aborted` from true back to false. -/
theorem aborted_flag_changes (e : Response) (c : Context) (out : Stdout) :
    e.Abort.aborted = true
    ∧ (e.InternalErr c).1.aborted = true
    ∧ (e.ForbiddenErr c).1.aborted = true
    ∧ (e.NotFoundErr c).1.aborted = true
    ∧ (e.UnauthorizedErr c).1.aborted = true
    ∧ (e.BadRequestErr c).1.aborted = true
    ∧ (∀ msg : String, (e.CheckInternalErr c (some msg)).2.1.aborted = true)
    ∧ (∀ data : Value, (e.Success c data).1.aborted = e.aborted)
    ∧ (∀ code : Int, (e.WithCode code).aborted = e.aborted)
    ∧ (∀ s : List Value, (e.WithMsg s).aborted = e.aborted)
    ∧ (∀ ec : Error, (e.WithCodeAndMsg ec).aborted = e.aborted)
    ∧ (∀ (rt : Caller) (err : GoError), (e.Log rt out err).1.aborted = e.aborted)
    ∧ (∀ err : Value,
        ((Call.Try err).exec { e := e, c := c, out := out }).e.aborted = e.aborted)
    ∧ (e.CheckInternalErr c none).2.1.aborted = e.aborted
    ∧ newResponse.aborted = false
    ∧ (Call.Abort.exec { e := e, c := c, out := out }).c = c
    ∧ (∀ ks : List Call, e.aborted = true →
        (execAll ks { e := e, c := c, out := out }).e.aborted = true) := by
  refine ⟨rfl, rfl, rfl, rfl, rfl, rfl, ?_, fun _ => rfl, fun _ => rfl, fun _ => rfl,
    fun _ => rfl, fun _ _ => rfl, fun _ => rfl, ?_, rfl, rfl, ?_⟩
  · intro msg
    rw [CheckInternalErr_some]
    rfl
  · rw [CheckInternalErr_none]
  · intro ks h
    exact execAll_aborted_of_aborted ks { e := e, c := c, out := out } h

/-- C9 on a concrete sequence: after `Abort()`, the calls `WithCode(7)`,
`Success(nil)`, `CheckInternalErr(nil)` and `Try(nil)` leave the flag true. -/
theorem aborted_flag_changes_witness :
    (execAll [Call.WithCode 7, Call.Success Value.nil, Call.CheckInternalErr none,
        Call.Try Value.nil]
      { e := { Code := 0, Msg := "", aborted := true }, c := { writes := [] },
        out := [] }).e.aborted = true :=
  (aborted_flag_changes { Code := 0, Msg := "", aborted := true } { writes := [] }
    []).2.2.2.2.2.2.2.2.2.2.2.2.2.2.2.2
    [Call.WithCode 7, Call.Success Value.nil, Call.CheckInternalErr none, Call.Try Value.nil]
    rfl

/-! ## `Try` -/

/-- C10: for every builder state and argument, `Try(err)` returns true
exactly when `err` is non-nil and false exactly when it is nil; the result
does not depend on the builder; the call writes nothing and leaves builder,
context and standard output unchanged; and `Try` applied to the error built in
the test, after `WithMsgLog("some error", err).InternalErr(c)`, returns true. -/
theorem Try_iff_present (e : Response) (err : Value) :
    (e.Try err = true ↔ err ≠ Value.nil)
    ∧ (e.Try err = false ↔ err = Value.nil)
    ∧ (∀ e2 : Response, e2.Try err = e.Try err)
    ∧ (∀ w : World, (Call.Try err).exec w = w)
    ∧ (∀ (now : Int) (rt : Caller) (out : Stdout) (c : Context),
        ((WithMsgLog now rt out
            [Value.str "some error", GoError.toValue (some "this is test error")]).1.InternalErr
          c).1.Try (GoError.toValue (some "this is test error")) = true) := by
  refine ⟨?_, ?_, fun _ => rfl, fun _ => rfl, fun _ _ _ _ => ?_⟩
  · simp [Response.Try]
  · simp [Response.Try]
  · simp [Response.Try, GoError.toValue]

/-- C10 at concrete inputs: `Try` of a non-nil error is true, of nil false. -/
theorem Try_iff_present_witness :
    newResponse.Try (Value.error "this is test error") = true
    ∧ newResponse.Try Value.nil = false :=
  ⟨(Try_iff_present newResponse (Value.error "this is test error")).1.mpr (by decide),
   (Try_iff_present newResponse Value.nil).2.1.mpr rfl⟩

end Resp
